import Mathlib

/-!
Verification development for the "Can I Burn?" burn-restriction service.

The embedding models:
* JavaScript strings as lists of code points (`JSString`), with the ASCII
  case-lowering used by `toLowerCase` and substring search used by `includes`;
* JavaScript numbers as `JSNum` (either `NaN` or a rational value), with a
  `parseFloat` model covering sign, integer and fractional digits (exponents
  and `Infinity` are outside the inputs this service handles);
* the HTTP route handler `GET` of `src/app/api/enhanced/burn_restrictions`
  (src/unnamed/part_001) as a pure function over an environment of external
  collaborators (geocoder, province detector, restriction scraper), returning
  the response together with a trace of the external calls it made;
* the client-side status classifier `mapStatusToUI` of
  `src/components/FireRestrictionApp.tsx`.
-/

namespace CanIBurn

/-- A JavaScript string, as its list of code points. -/
abbrev JSString := List Nat

/-- Embed a Lean string literal as a `JSString`. -/
def jstr (s : String) : JSString := s.data.map Char.toNat

/-- A JavaScript number: either `NaN` or an actual (rational) value. -/
inductive JSNum where
  | NaN : JSNum
  | val : Rat → JSNum
deriving DecidableEq

/-- The `isNaN` test. -/
def isNaN : JSNum → Bool
  | .NaN => true
  | .val _ => false

/-- JavaScript whitespace characters skipped by `parseFloat`. -/
def isSpaceCode (c : Nat) : Bool :=
  c == 32 || c == 9 || c == 10 || c == 11 || c == 12 || c == 13

/-- ASCII digit test on a code point. -/
def isDigitCode (c : Nat) : Bool := 48 ≤ c && c ≤ 57

/-- Accumulate a digit list into a natural number. -/
def digitsVal (ds : List Nat) : Nat := ds.foldl (fun a c => a * 10 + (c - 48)) 0

/-- Lexical part of `parseFloat`: skip leading whitespace, read an optional
sign, integer digits and an optional fractional part, ignoring any trailing
text. Returns (negative?, integer digits, fractional digits). -/
def parseParts (s : JSString) : Bool × List Nat × List Nat :=
  let s1 := s.dropWhile isSpaceCode
  let neg := s1.headD 0 == 45
  let s2 := if s1.headD 0 == 45 || s1.headD 0 == 43 then s1.tail else s1
  let intDigits := s2.takeWhile isDigitCode
  let rest := s2.dropWhile isDigitCode
  let fracDigits := if rest.headD 0 == 46 then rest.tail.takeWhile isDigitCode else []
  (neg, intDigits, fracDigits)

/-- Model of JavaScript `parseFloat`: the lexed digits as a rational value,
or `NaN` when no digit was read (exponents and `Infinity` are outside the
inputs this service handles). -/
def parseFloat (s : JSString) : JSNum :=
  match parseParts s with
  | (neg, intDigits, fracDigits) =>
    if intDigits.isEmpty && fracDigits.isEmpty then .NaN
    else .val ((if neg then (-1 : Rat) else 1) * ((digitsVal intDigits : Rat) +
      (digitsVal fracDigits : Rat) / ((10 : Rat) ^ fracDigits.length)))

/-- JavaScript truthiness of a nullable string query parameter:
`null` and the empty string are falsy. -/
def truthy : Option JSString → Bool
  | none => false
  | some s => !s.isEmpty

/-- Lower-case one code point, as JavaScript `toLowerCase` acts on ASCII. -/
def lowerChar (c : Nat) : Nat := if 65 ≤ c ∧ c ≤ 90 then c + 32 else c

/-- Lower-case a string, as JavaScript `toLowerCase` acts on ASCII text. -/
def lowerStr (s : JSString) : JSString := s.map lowerChar

/-- JavaScript `s.includes(pat)`: substring containment, checking `pat`
against every suffix of `s`. -/
def includes : JSString → JSString → Bool
  | [], pat => pat.isEmpty
  | c :: rest, pat => pat.isPrefixOf (c :: rest) || includes rest pat

/-- The four UI status values of `UICardRestrictionData.status`. -/
inductive UIStatus where
  | ALLOWED | RESTRICTED | BANNED | UNKNOWN
deriving DecidableEq

/-- `mapStatusToUI` from src/components/FireRestrictionApp.tsx: lower-case the
(possibly absent) raw status and classify it by keyword containment. -/
def mapStatusToUI (burnStatus : Option JSString) : UIStatus :=
  let s := lowerStr (burnStatus.getD [])
  if includes s (jstr "no fires") || includes s (jstr "no fire") ||
      includes s (jstr "banned") then .BANNED
  else if includes s (jstr "restricted") then .RESTRICTED
  else if includes s (jstr "open") || includes s (jstr "allowed") ||
      includes s (jstr "permitted") then .ALLOWED
  else .UNKNOWN

/-- The `RestrictionStatus` enumeration of the data model. -/
inductive RestrictionStatus where
  | OPEN | RESTRICTED | BANNED | UNKNOWN
deriving DecidableEq

/-- A `NormalizedReport`: status, detail lines, source, timestamp and an
optional province-specific extra payload. -/
structure NormalizedReport where
  status : RestrictionStatus
  details : List JSString
  source : JSString
  lastUpdated : JSString
  extra : Option JSString
deriving DecidableEq

/-- Body of a JSON response: either an error envelope or a report envelope
(latitude, longitude, province, county, spread restriction report). -/
inductive RespBody where
  | err : JSString → RespBody
  | report : JSNum → JSNum → JSString → Option JSString → NormalizedReport → RespBody
deriving DecidableEq

/-- An HTTP response: status code, JSON body and extra headers. -/
structure Response where
  status : Nat
  body : RespBody
  headers : List (JSString × JSString)
deriving DecidableEq

/-- Error message for a request with neither usable coordinates nor text. -/
def requiredMsg : JSString := jstr "Latitude and longitude are required"

/-- Error message for non-numeric coordinates. -/
def invalidMsg : JSString := jstr "Invalid latitude or longitude"

/-- Error message when the coordinate is outside every supported region. -/
def outsideMsg : JSString :=
  jstr "Location is outside supported provinces and territories (PEI, NB, NS, ON, BC, AB, SK, MB, QC, NL, YT, NT, NU)"

/-- Error message when the scraper yields no data. -/
def fetchFailMsg : JSString := jstr "Could not fetch burn restrictions"

/-- Error message when geocoding a location string fails. -/
def geocodeFailMsg (loc : JSString) : JSString :=
  jstr "Could not find coordinates for location: " ++ loc

/-- The cache-busting headers set on the success path of the route. -/
def noStoreHeaders : List (JSString × JSString) :=
  [(jstr "Cache-Control", jstr "no-cache, no-store, must-revalidate"),
   (jstr "Pragma", jstr "no-cache"),
   (jstr "Expires", jstr "0")]

/-- A JSON error response, as built by `NextResponse.json(\x7b error \x7d, \x7b status \x7d)`
(no extra headers are attached on those paths). -/
def jsonError (status : Nat) (msg : JSString) : Response :=
  { status := status, body := .err msg, headers := [] }

/-- External collaborators of the route handler: the geocoder
(`geocodeLocation`), the province detector (`detectProvinceAndCounty`,
returning a nullable province and county) and the restriction scraper
(`scrapeBurnRestrictions`, returning a nullable report). -/
structure Env where
  geocode : JSString → Option (Rat × Rat)
  detect : JSNum → JSNum → Option JSString × Option JSString
  scrape : JSString → Option JSString → JSNum → JSNum → Option NormalizedReport

/-- Trace of the external calls the handler makes, in order. -/
inductive Event where
  | geocodeCall : JSString → Event
  | detectCall : JSNum → JSNum → Event
  | scrapeCall : JSString → Option JSString → JSNum → JSNum → Event
deriving DecidableEq

/-- The part of the route after `lat`/`lon` are bound: NaN validation,
province/county detection, restriction scraping and response assembly
(src/unnamed/part_001 lines 39-82). -/
def afterCoords (env : Env) (lat lon : JSNum) (tr : List Event) :
    Response × List Event :=
  if isNaN lat || isNaN lon then
    (jsonError 400 invalidMsg, tr)
  else if truthy (env.detect lat lon).1 then
    match env.scrape ((env.detect lat lon).1.getD []) (env.detect lat lon).2
        lat lon with
    | none =>
        (jsonError 500 fetchFailMsg,
         tr ++ [Event.detectCall lat lon]
            ++ [Event.scrapeCall ((env.detect lat lon).1.getD [])
                  (env.detect lat lon).2 lat lon])
    | some restrictions =>
        ({ status := 200,
           body := RespBody.report lat lon ((env.detect lat lon).1.getD [])
             (env.detect lat lon).2 restrictions,
           headers := noStoreHeaders },
         tr ++ [Event.detectCall lat lon]
            ++ [Event.scrapeCall ((env.detect lat lon).1.getD [])
                  (env.detect lat lon).2 lat lon])
  else
    (jsonError 400 outsideMsg, tr ++ [Event.detectCall lat lon])

/-- The route handler `GET` of src/unnamed/part_001: geocode when a location
string is given and a coordinate is missing, otherwise parse the given
coordinates, otherwise reject; then hand off to `afterCoords`. -/
def GET (env : Env) (latitude longitude location : Option JSString) :
    Response × List Event :=
  if truthy location && (!truthy latitude || !truthy longitude) then
    match env.geocode (location.getD []) with
    | none =>
        (jsonError 400 (geocodeFailMsg (location.getD [])),
         [Event.geocodeCall (location.getD [])])
    | some (glat, glon) =>
        afterCoords env (JSNum.val glat) (JSNum.val glon)
          [Event.geocodeCall (location.getD [])]
  else if truthy latitude && truthy longitude then
    afterCoords env (parseFloat (latitude.getD []))
      (parseFloat (longitude.getD [])) []
  else
    (jsonError 400 requiredMsg, [])

/-- Kinds of failure a source adapter may report. -/
inductive ErrorKind where
  | fetchFailure | parseFailure | noData | timeout
deriving DecidableEq

/-- An `AdapterOutcome`: success with a report, or a tagged failure. -/
inductive AdapterOutcome where
  | success : NormalizedReport → AdapterOutcome
  | failure : ErrorKind → JSString → AdapterOutcome
deriving DecidableEq

/-- The source name marking a degraded report as coming from the fallback. -/
def fallbackSource : JSString := jstr "fallback"

/-- Modelled from the spec: the AggregationCoordinator inside
`scrapeBurnRestrictions` (src/lib/restrictions_scraper is not present under
src/). Per the spec, "if the primary adapter call fails or times out, do not
propagate the error to the caller: synthesize a degraded NormalizedReport
with status UNKNOWN, source marked as a fallback source, and no extra
payload". -/
def coordinatorReport (now : JSString) (o : AdapterOutcome) : NormalizedReport :=
  match o with
  | .success r => r
  | .failure _ _ =>
      { status := .UNKNOWN, details := [], source := fallbackSource,
        lastUpdated := now, extra := none }

/-- Modelled from the spec: `scrapeBurnRestrictions` as seen by the route —
the coordinator always returns a report (`getReport` "always succeeds from
the caller's point of view"), so the nullable result is always `some`. -/
def scrapeModel
    (adapter : JSString → Option JSString → JSNum → JSNum → AdapterOutcome)
    (now : JSString) :
    JSString → Option JSString → JSNum → JSNum → Option NormalizedReport :=
  fun p c la lo => some (coordinatorReport now (adapter p c la lo))

/-- A concrete environment whose detector never finds a province. -/
def envNowhere : Env :=
  { geocode := fun _ => none,
    detect := fun _ _ => (none, none),
    scrape := fun _ _ _ _ => none }

/-- A fixed sample report for concrete environments. -/
def sampleReport : NormalizedReport :=
  { status := .OPEN, details := [jstr "ok"], source := jstr "prov",
    lastUpdated := jstr "t0", extra := none }

/-- A concrete environment on which every request path succeeds. -/
def envHappy : Env :=
  { geocode := fun _ => some (46, -63),
    detect := fun _ _ => (some (jstr "PEI"), some (jstr "PRINCE")),
    scrape := fun _ _ _ _ => some sampleReport }

/-- A concrete adapter that always fails. -/
def failingAdapter : JSString → Option JSString → JSNum → JSNum → AdapterOutcome :=
  fun _ _ _ _ => .failure .fetchFailure (jstr "upstream timeout")

/-- A concrete environment whose scraper is the spec-modelled coordinator
over an always-failing adapter. -/
def envDegraded : Env :=
  { geocode := fun _ => none,
    detect := fun _ _ => (some (jstr "PEI"), none),
    scrape := scrapeModel failingAdapter (jstr "t1") }

theorem truthy_of_ne_nil (s : JSString) (h : s ≠ []) : truthy (some s) = true := by
  cases s with
  | nil => exact absurd rfl h
  | cons a t => rfl

theorem lowerChar_idem (c : Nat) : lowerChar (lowerChar c) = lowerChar c := by
  simp only [lowerChar]
  split
  · rw [if_neg (by omega)]
  · rfl

theorem lowerStr_idem (s : JSString) : lowerStr (lowerStr s) = lowerStr s := by
  simp only [lowerStr, List.map_map]
  exact List.map_congr_left fun a _ => lowerChar_idem a

/-- C10: the status classifier is case-insensitive — classifying a string and
classifying its lower-cased form produce the same `UIStatus`, because
`mapStatusToUI` lower-cases its input first and lower-casing is idempotent. -/
theorem mapStatusToUI_case_insensitive (s : JSString) :
    mapStatusToUI (some (lowerStr s)) = mapStatusToUI (some s) := by
  simp only [mapStatusToUI, Option.getD_some, lowerStr_idem]

/-- C3 counterexample: the raw status string "No Burning" contains none of
the classifier's keywords, so `mapStatusToUI` sends it to `UNKNOWN`, not to
`BANNED` as claimed. -/
theorem noBurning_maps_to_UNKNOWN :
    mapStatusToUI (some (jstr "No Burning")) = UIStatus.UNKNOWN
    ∧ mapStatusToUI (some (jstr "No Burning")) ≠ UIStatus.BANNED := by
  constructor
  · decide
  · decide

/-- C3 (amended): the classifier maps "No Burning" to UNKNOWN (it matches no
keyword), "Restricted Burning Permitted" to RESTRICTED, "Open Burning
Allowed" to ALLOWED, the empty string (or an absent one) to UNKNOWN, and any
text containing none of the seven keywords to UNKNOWN — in particular
unmatched text never maps to ALLOWED or BANNED. -/
theorem mapStatusToUI_table :
    mapStatusToUI (some (jstr "No Burning")) = UIStatus.UNKNOWN
    ∧ mapStatusToUI (some (jstr "Restricted Burning Permitted")) = UIStatus.RESTRICTED
    ∧ mapStatusToUI (some (jstr "Open Burning Allowed")) = UIStatus.ALLOWED
    ∧ mapStatusToUI (some (jstr "")) = UIStatus.UNKNOWN
    ∧ mapStatusToUI none = UIStatus.UNKNOWN
    ∧ ∀ s : JSString,
        includes (lowerStr s) (jstr "no fires") = false →
        includes (lowerStr s) (jstr "no fire") = false →
        includes (lowerStr s) (jstr "banned") = false →
        includes (lowerStr s) (jstr "restricted") = false →
        includes (lowerStr s) (jstr "open") = false →
        includes (lowerStr s) (jstr "allowed") = false →
        includes (lowerStr s) (jstr "permitted") = false →
        mapStatusToUI (some s) = UIStatus.UNKNOWN := by
  refine ⟨by decide, by decide, by decide, by decide, by decide, ?_⟩
  intro s h1 h2 h3 h4 h5 h6 h7
  simp [mapStatusToUI, Option.getD_some, h1, h2, h3, h4, h5, h6, h7]

theorem mapStatusToUI_table_witness :
    mapStatusToUI (some (jstr "Category unknown")) = UIStatus.UNKNOWN :=
  mapStatusToUI_table.2.2.2.2.2 (jstr "Category unknown")
    (by decide) (by decide) (by decide) (by decide) (by decide) (by decide)
    (by decide)

theorem GET_coords (env : Env) (latS lonS : JSString) (location : Option JSString)
    (hlat : latS ≠ []) (hlon : lonS ≠ []) :
    GET env (some latS) (some lonS) location =
      afterCoords env (parseFloat latS) (parseFloat lonS) [] := by
  unfold GET
  rw [truthy_of_ne_nil latS hlat, truthy_of_ne_nil lonS hlon]
  simp

theorem afterCoords_nan (env : Env) (lat lon : JSNum) (tr : List Event)
    (h : (isNaN lat || isNaN lon) = true) :
    afterCoords env lat lon tr = (jsonError 400 invalidMsg, tr) := by
  unfold afterCoords
  rw [if_pos h]

theorem afterCoords_noProvince (env : Env) (lat lon : JSNum) (tr : List Event)
    (hn : (isNaN lat || isNaN lon) = false)
    (hp : truthy (env.detect lat lon).1 = false) :
    afterCoords env lat lon tr =
      (jsonError 400 outsideMsg, tr ++ [Event.detectCall lat lon]) := by
  unfold afterCoords
  rw [if_neg (by simp [hn]), if_neg (by simp [hp])]

theorem afterCoords_scrape_some (env : Env) (lat lon : JSNum) (tr : List Event)
    (r : NormalizedReport)
    (hn : (isNaN lat || isNaN lon) = false)
    (hp : truthy (env.detect lat lon).1 = true)
    (hs : env.scrape ((env.detect lat lon).1.getD []) (env.detect lat lon).2
        lat lon = some r) :
    afterCoords env lat lon tr =
      ({ status := 200,
         body := RespBody.report lat lon ((env.detect lat lon).1.getD [])
           (env.detect lat lon).2 r,
         headers := noStoreHeaders },
       tr ++ [Event.detectCall lat lon]
          ++ [Event.scrapeCall ((env.detect lat lon).1.getD [])
                (env.detect lat lon).2 lat lon]) := by
  unfold afterCoords
  rw [if_neg (by simp [hn]), if_pos hp, hs]

theorem afterCoords_trace_geocodeFree (env : Env) (lat lon : JSNum)
    (tr : List Event) (l : JSString) (h : Event.geocodeCall l ∉ tr) :
    Event.geocodeCall l ∉ (afterCoords env lat lon tr).2 := by
  unfold afterCoords
  split
  · exact h
  · split
    · split
      · simp_all
      · simp_all
    · simp_all

theorem afterCoords_headers (env : Env) (lat lon : JSNum) (tr : List Event) :
    (afterCoords env lat lon tr).1.status = 200 →
    (afterCoords env lat lon tr).1.headers = noStoreHeaders := by
  unfold afterCoords
  split
  · intro h; simp [jsonError] at h
  · split
    · split
      · intro h; simp [jsonError] at h
      · intro _; rfl
    · intro h; simp [jsonError] at h

/-- C5: when both coordinate query parameters are absent and no location text
is given, the handler returns the 400 "Latitude and longitude are required"
error and makes no external call at all (empty trace): no geocoding, no
resolution, no fetching. -/
theorem missing_input_rejected (env : Env) :
    GET env none none none = (jsonError 400 requiredMsg, []) := rfl

/-- C4: when both coordinates are supplied (non-empty), they are parsed and
used for resolution whatever the location text is, and the geocoder is never
invoked (no geocode call ever appears in the trace). -/
theorem coords_take_precedence (env : Env) (latS lonS : JSString)
    (location : Option JSString) (hlat : latS ≠ []) (hlon : lonS ≠ []) :
    GET env (some latS) (some lonS) location =
      afterCoords env (parseFloat latS) (parseFloat lonS) []
    ∧ ∀ l, Event.geocodeCall l ∉ (GET env (some latS) (some lonS) location).2 := by
  have h := GET_coords env latS lonS location hlat hlon
  refine ⟨h, fun l => ?_⟩
  rw [h]
  exact afterCoords_trace_geocodeFree env _ _ [] l (by simp)

theorem coords_take_precedence_witness :
    GET envHappy (some (jstr "46")) (some (jstr "-63"))
        (some (jstr "Vancouver")) =
      afterCoords envHappy (parseFloat (jstr "46")) (parseFloat (jstr "-63")) []
    ∧ Event.geocodeCall (jstr "Vancouver") ∉
        (GET envHappy (some (jstr "46")) (some (jstr "-63"))
          (some (jstr "Vancouver"))).2 :=
  ⟨(coords_take_precedence envHappy (jstr "46") (jstr "-63")
      (some (jstr "Vancouver")) (by decide) (by decide)).1,
   (coords_take_precedence envHappy (jstr "46") (jstr "-63")
      (some (jstr "Vancouver")) (by decide) (by decide)).2 (jstr "Vancouver")⟩

/-- C2 counterexample: latitude "999" parses to 999, which is outside
[−90, 90], yet the handler does not reject it as a client input error before
resolution: the province detector is invoked on it, and the response is the
outside-supported-regions error, not the invalid-coordinates rejection. -/
theorem outOfRange_not_rejected :
    parseFloat (jstr "999") = JSNum.val 999
    ∧ ¬ ((999 : Rat) ≤ 90)
    ∧ GET envNowhere (some (jstr "999")) (some (jstr "0")) none =
        (jsonError 400 outsideMsg,
         [Event.detectCall (parseFloat (jstr "999")) (parseFloat (jstr "0"))]) := by
  refine ⟨?_, by norm_num, rfl⟩
  have h : parseParts (jstr "999") = (false, [57, 57, 57], []) := by decide
  unfold parseFloat
  rw [h]
  norm_num [digitsVal, List.foldl]

/-- C2 (amended): a non-numeric coordinate value (either one parsing to NaN)
is rejected with the 400 invalid-coordinates error before any resolution is
attempted — the trace is empty, so neither the detector nor the geocoder nor
the scraper runs. Out-of-range numeric values, however, are not range-checked
and proceed to resolution (see the counterexample). -/
theorem nonNumeric_rejected_before_resolution (env : Env) (latS lonS : JSString)
    (location : Option JSString) (hlat : latS ≠ []) (hlon : lonS ≠ [])
    (hnan : (isNaN (parseFloat latS) || isNaN (parseFloat lonS)) = true) :
    GET env (some latS) (some lonS) location = (jsonError 400 invalidMsg, []) := by
  rw [GET_coords env latS lonS location hlat hlon,
    afterCoords_nan env _ _ [] hnan]

theorem nonNumeric_rejected_before_resolution_witness :
    GET envHappy (some (jstr "abc")) (some (jstr "-63")) none =
      (jsonError 400 invalidMsg, []) :=
  nonNumeric_rejected_before_resolution envHappy (jstr "abc") (jstr "-63")
    none (by decide) (by decide) rfl

/-- C9: when both coordinate parameters are present but at least one parses
as NaN, the handler returns the invalid-coordinates client error with an
empty trace even when a non-empty location string is also supplied — in
particular geocoding is never used as a fallback for malformed
coordinates. -/
theorem nan_coords_skip_geocoding (env : Env) (latS lonS loc : JSString)
    (hlat : latS ≠ []) (hlon : lonS ≠ []) (hloc : loc ≠ [])
    (hnan : (isNaN (parseFloat latS) || isNaN (parseFloat lonS)) = true) :
    (GET env (some latS) (some lonS) (some loc)).1 = jsonError 400 invalidMsg
    ∧ ∀ l, Event.geocodeCall l ∉ (GET env (some latS) (some lonS) (some loc)).2 := by
  have h := GET_coords env latS lonS (some loc) hlat hlon
  rw [h, afterCoords_nan env _ _ [] hnan]
  exact ⟨rfl, by simp⟩

theorem nan_coords_skip_geocoding_witness :
    (GET envHappy (some (jstr "abc")) (some (jstr "1"))
        (some (jstr "Tignish"))).1 = jsonError 400 invalidMsg
    ∧ Event.geocodeCall (jstr "Tignish") ∉
        (GET envHappy (some (jstr "abc")) (some (jstr "1"))
          (some (jstr "Tignish"))).2 :=
  ⟨(nan_coords_skip_geocoding envHappy (jstr "abc") (jstr "1") (jstr "Tignish")
      (by decide) (by decide) (by decide) rfl).1,
   (nan_coords_skip_geocoding envHappy (jstr "abc") (jstr "1") (jstr "Tignish")
      (by decide) (by decide) (by decide) rfl).2 (jstr "Tignish")⟩

/-- C6: a pair of numeric coordinates for which the detector finds no
province is answered with the 400 outside-supported-regions client error,
not an internal error. -/
theorem outside_regions_client_error (env : Env) (latS lonS : JSString)
    (location : Option JSString) (hlat : latS ≠ []) (hlon : lonS ≠ [])
    (hnan : (isNaN (parseFloat latS) || isNaN (parseFloat lonS)) = false)
    (hdet : truthy (env.detect (parseFloat latS) (parseFloat lonS)).1 = false) :
    (GET env (some latS) (some lonS) location).1 = jsonError 400 outsideMsg := by
  rw [GET_coords env latS lonS location hlat hlon,
    afterCoords_noProvince env _ _ [] hnan hdet]

theorem outside_regions_client_error_witness :
    (GET envNowhere (some (jstr "0")) (some (jstr "0")) none).1 =
      jsonError 400 outsideMsg :=
  outside_regions_client_error envNowhere (jstr "0") (jstr "0") none
    (by decide) (by decide) rfl rfl

/-- C7: for a request carrying a non-empty location string and lacking at
least one coordinate parameter, a failed geocoding (no coordinates found) is
surfaced directly to the caller as the 400 geocoding error; the trace shows
only the geocode call — resolution never proceeds. -/
theorem geocoding_failure_surfaced (env : Env) (loc : JSString)
    (latitude longitude : Option JSString) (hloc : loc ≠ [])
    (hmiss : truthy latitude = false ∨ truthy longitude = false)
    (hgeo : env.geocode loc = none) :
    GET env latitude longitude (some loc) =
      (jsonError 400 (geocodeFailMsg loc), [Event.geocodeCall loc]) := by
  unfold GET
  have hc : (truthy (some loc) && (!truthy latitude || !truthy longitude))
      = true := by
    rw [truthy_of_ne_nil loc hloc]
    rcases hmiss with h | h <;> simp [h]
  rw [if_pos hc]
  simp [hgeo]

theorem geocoding_failure_surfaced_witness :
    GET envNowhere none none (some (jstr "Tignish")) =
      (jsonError 400 (geocodeFailMsg (jstr "Tignish")),
       [Event.geocodeCall (jstr "Tignish")]) :=
  geocoding_failure_surfaced envNowhere (jstr "Tignish") none none
    (by decide) (Or.inl rfl) rfl

/-- C8 counterexample: the response to a request with no input is a 400 error
carrying no headers at all — in particular it is not marked no-store, so not
every response is marked non-cacheable at the transport boundary. -/
theorem error_response_not_no_store :
    (GET envHappy none none none).1.headers = []
    ∧ (GET envHappy none none none).1.status = 400 := ⟨rfl, rfl⟩

/-- C8 (amended): every successful (status-200) response is marked
non-cacheable with the no-store cache-busting headers; error responses carry
no such headers. -/
theorem success_response_no_store (env : Env)
    (latitude longitude location : Option JSString)
    (h : (GET env latitude longitude location).1.status = 200) :
    (GET env latitude longitude location).1.headers = noStoreHeaders := by
  revert h
  unfold GET
  split
  · split
    · intro h; simp [jsonError] at h
    · exact afterCoords_headers env _ _ _
  · split
    · exact afterCoords_headers env _ _ _
    · intro h; simp [jsonError] at h

theorem success_response_no_store_witness :
    (GET envHappy (some (jstr "46")) (some (jstr "-63")) none).1.headers =
      noStoreHeaders :=
  success_response_no_store envHappy (some (jstr "46")) (some (jstr "-63"))
    none rfl

/-- C1: with the scraper modelled from the spec as an aggregation coordinator
that never fails, a request whose resolved province's adapter fails still
gets a 200 response carrying a normalized report with status UNKNOWN, source
marked as the fallback source and no extra payload — the upstream failure is
never surfaced as an error response. -/
theorem adapter_failure_degrades
    (adapter : JSString → Option JSString → JSNum → JSNum → AdapterOutcome)
    (now : JSString) (env : Env)
    (hscrape : env.scrape = scrapeModel adapter now)
    (latS lonS : JSString) (location : Option JSString)
    (hlat : latS ≠ []) (hlon : lonS ≠ [])
    (hnan : (isNaN (parseFloat latS) || isNaN (parseFloat lonS)) = false)
    (hprov : truthy
      (env.detect (parseFloat latS) (parseFloat lonS)).1 = true)
    (k : ErrorKind) (m : JSString)
    (hfail : adapter
        ((env.detect (parseFloat latS) (parseFloat lonS)).1.getD [])
        (env.detect (parseFloat latS) (parseFloat lonS)).2
        (parseFloat latS) (parseFloat lonS) = .failure k m) :
    ∃ r : NormalizedReport,
      (GET env (some latS) (some lonS) location).1 =
        { status := 200,
          body := RespBody.report (parseFloat latS) (parseFloat lonS)
            ((env.detect (parseFloat latS) (parseFloat lonS)).1.getD [])
            (env.detect (parseFloat latS) (parseFloat lonS)).2 r,
          headers := noStoreHeaders }
      ∧ r.status = RestrictionStatus.UNKNOWN
      ∧ r.source = fallbackSource
      ∧ r.extra = none := by
  refine ⟨coordinatorReport now (.failure k m), ?_, rfl, rfl, rfl⟩
  have hs : env.scrape
      ((env.detect (parseFloat latS) (parseFloat lonS)).1.getD [])
      (env.detect (parseFloat latS) (parseFloat lonS)).2
      (parseFloat latS) (parseFloat lonS) =
      some (coordinatorReport now (.failure k m)) := by
    rw [hscrape]
    unfold scrapeModel
    rw [hfail]
  rw [GET_coords env latS lonS location hlat hlon,
    afterCoords_scrape_some env _ _ [] _ hnan hprov hs]

theorem adapter_failure_degrades_witness :
    ∃ r : NormalizedReport,
      (GET envDegraded (some (jstr "46")) (some (jstr "-63")) none).1 =
        { status := 200,
          body := RespBody.report (parseFloat (jstr "46"))
            (parseFloat (jstr "-63"))
            ((envDegraded.detect (parseFloat (jstr "46"))
                (parseFloat (jstr "-63"))).1.getD [])
            (envDegraded.detect (parseFloat (jstr "46"))
              (parseFloat (jstr "-63"))).2 r,
          headers := noStoreHeaders }
      ∧ r.status = RestrictionStatus.UNKNOWN
      ∧ r.source = fallbackSource
      ∧ r.extra = none :=
  adapter_failure_degrades failingAdapter (jstr "t1") envDegraded rfl
    (jstr "46") (jstr "-63") none (by decide) (by decide) rfl rfl
    ErrorKind.fetchFailure (jstr "upstream timeout") rfl

end CanIBurn
